import Mathlib

/-!
Shallow embedding of the Gemini.js client library (vanillaGem) and proofs of
the behavioral claims about it: the retry/backoff request executor, the
capability handlers (text, vision, embeddings), the chat session turn log,
and the response wrappers.

JavaScript idioms are embedded explicitly:
* a JS value that may be `undefined` is an `Option`;
* `x || d` defaulting treats `0` and the empty string as falsy, so it is
  embedded as a function that replaces `none`, `0` and `""` by the default;
* machine numbers that only flow through payloads unchanged are embedded as
  `Nat` / `ℚ` (no floating-point arithmetic is performed by the source);
* the network is an oracle: a function from the attempt index to the outcome
  of that attempt (success body, HTTP error status, abort, or fetch failure).
-/

namespace Gemini

/-- A content part: either a text part or an inline-data (image) part. -/
inductive Part
  | text (s : String)
  | inlineData (mimeType : String) (data : String)
deriving DecidableEq, Repr

/-- Roles a conversation turn can carry. -/
inductive Role
  | user
  | model
  | system
deriving DecidableEq, Repr

/-- A conversation turn: `{role, parts}` as pushed into `ChatSession.messages`. -/
structure Turn where
  role : Role
  parts : List Part
deriving DecidableEq, Repr

/-- An error thrown inside the request loop: either a `GeminiError` with a
message and numeric code, or a plain JS error identified by its `name`. -/
inductive ThrownError
  | geminiError (message : String) (code : Nat)
  | jsError (name : String) (message : String)
deriving DecidableEq, Repr

/-- Embeds `isRetryableError` from the source: a `GeminiError` is retryable
iff its code is in `[429, 500, 502, 503, 504]`; any other error is retryable
iff its name is `TypeError` or `NetworkError`. -/
def isRetryableError : ThrownError → Bool
  | .geminiError _ code => [429, 500, 502, 503, 504].contains code
  | .jsError name _ => name == "TypeError" || name == "NetworkError"

/-- Outcome of one network attempt, as seen by the request loop's `try` body:
the fetch resolves with an ok response (`success` with decoded body), resolves
with a non-ok status (`httpError`), is aborted by the timeout (`abort`), or
the fetch itself rejects (`fetchFailure`, e.g. a TypeError network failure). -/
inductive Outcome (α : Type)
  | success (body : α)
  | httpError (status : Nat) (message : String)
  | abort
  | fetchFailure (name : String) (message : String)
deriving DecidableEq, Repr

/-- Result of `GeminiClient.request`: a returned body, a thrown error, or the
JS `undefined` returned when the while loop exits without returning. -/
inductive ExecResult (α : Type)
  | ok (body : α)
  | err (e : ThrownError)
  | undef
deriving DecidableEq, Repr

/-- Result of the request loop together with its observable trace: how many
network attempts were made and the backoff waits (in ms) in order. -/
structure RequestResult (α : Type) where
  result : ExecResult α
  attempts : Nat
  waits : List Nat
deriving DecidableEq, Repr

/-- Embeds one iteration body of the `while (retries <= this.maxRetries)`
loop of `GeminiClient.request` (the `try`/`catch` around one fetch).
`retries` is the loop variable before the `catch` block increments it, `o`
the outcome of this iteration's attempt, and `rest` what the remaining loop
iterations produce. A success returns the decoded body. In the catch block
`retries` is incremented, an abort is rethrown as a 408 `GeminiError`
immediately, the caught error is rethrown when the budget is exhausted
(`retries + 1 > maxRetries` after the increment) or the error is not
retryable, and otherwise the loop waits `2 ^ (retries + 1) * 500` ms (the
incremented loop variable) and continues with `rest`. -/
def attemptStep (maxRetries retries : Nat) (o : Outcome α)
    (rest : RequestResult α) : RequestResult α :=
  match o with
  | .success body => { result := .ok body, attempts := 1, waits := [] }
  | .abort =>
    { result := .err (.geminiError "Request timed out" 408)
      attempts := 1, waits := [] }
  | .httpError status message =>
    if retries + 1 > maxRetries ∨
        isRetryableError (.geminiError message status) = false then
      { result := .err (.geminiError message status)
        attempts := 1, waits := [] }
    else
      { result := rest.result
        attempts := rest.attempts + 1
        waits := 2 ^ (retries + 1) * 500 :: rest.waits }
  | .fetchFailure name message =>
    if retries + 1 > maxRetries ∨
        isRetryableError (.jsError name message) = false then
      { result := .err (.jsError name message)
        attempts := 1, waits := [] }
    else
      { result := rest.result
        attempts := rest.attempts + 1
        waits := 2 ^ (retries + 1) * 500 :: rest.waits }

/-- The retry loop itself: one `attemptStep` per iteration while the loop
condition `retries ≤ maxRetries` holds, the continuation being the loop at
the incremented `retries`. The attempt performed when the loop variable
equals `r` has outcome `outcomes r` (each failed iteration increments
`retries` by exactly one). The `fuel` argument makes the recursion
structural; `request` supplies `maxRetries + 1`, which dominates the number
of iterations, so fuel exhaustion coincides with the loop condition turning
false (JS falls out of the loop returning `undefined`). -/
def requestLoop (maxRetries : Nat) (outcomes : Nat → Outcome α) :
    Nat → Nat → RequestResult α
  | 0, _ => { result := .undef, attempts := 0, waits := [] }
  | fuel + 1, retries =>
    if retries ≤ maxRetries then
      attemptStep maxRetries retries (outcomes retries)
        (requestLoop maxRetries outcomes fuel (retries + 1))
    else { result := .undef, attempts := 0, waits := [] }

/-- Embeds `GeminiClient.request`: run the retry loop starting from
`retries = 0`. -/
def GeminiClient.request (maxRetries : Nat) (outcomes : Nat → Outcome α) :
    RequestResult α :=
  requestLoop maxRetries outcomes (maxRetries + 1) 0

/-- Embeds the JS defaulting idiom `x || d` for numbers that may be
`undefined`: `undefined` and `0` are falsy, so both select the default. -/
def jsOrNat : Option Nat → Nat → Nat
  | none, d => d
  | some n, d => if n = 0 then d else n

/-- Embeds `x || d` for rationals standing in for JS numbers: `undefined`
and `0` are falsy. -/
def jsOrRat : Option ℚ → ℚ → ℚ
  | none, d => d
  | some q, d => if q = 0 then d else q

/-- Embeds `x || d` for strings that may be `undefined`: `undefined` and
the empty string are falsy. -/
def jsOrString : Option String → String → String
  | none, d => d
  | some s, d => if s = "" then d else s

/-- Options object accepted by the `GeminiClient` constructor. -/
structure ClientOptions where
  model : Option String := none
  maxRetries : Option Nat := none
  timeout : Option Nat := none
deriving DecidableEq, Repr

/-- Configuration stored by a constructed client. -/
structure GeminiClient where
  apiKey : String
  baseUrl : String
  model : String
  maxRetries : Nat
  timeout : Nat
deriving DecidableEq, Repr

/-- Embeds the `GeminiClient` constructor: throws when the key is falsy
(empty), otherwise stores the key, the fixed base URL, and the
`||`-defaulted model, maxRetries and timeout. -/
def GeminiClient.make (apiKey : String) (options : ClientOptions) :
    Except ThrownError GeminiClient :=
  if apiKey = "" then .error (.jsError "Error" "API key is required")
  else .ok
    { apiKey := apiKey
      baseUrl := "https://generativelanguage.googleapis.com/v1beta"
      model := jsOrString options.model "gemini-1.5-pro"
      maxRetries := jsOrNat options.maxRetries 3
      timeout := jsOrNat options.timeout 30000 }

/-- Generation options accepted by `TextHandler.generate` (and reused by the
vision handler); `none` embeds an absent (undefined) field. Safety settings
are opaque policy objects; they are embedded as strings. -/
structure GenOptions where
  model : Option String := none
  temperature : Option ℚ := none
  topK : Option Nat := none
  topP : Option ℚ := none
  maxTokens : Option Nat := none
  stopSequences : Option (List String) := none
  safetySettings : Option (List String) := none
deriving DecidableEq, Repr

/-- The `generationConfig` block built by `TextHandler.generate`. -/
structure TextGenConfig where
  temperature : ℚ
  topK : Nat
  topP : ℚ
  maxOutputTokens : Nat
  stopSequences : List String
deriving DecidableEq, Repr

/-- A content object of the text-generation payload: it carries only parts
(no role field). -/
structure TextContent where
  parts : List Part
deriving DecidableEq, Repr

/-- The request built by `TextHandler.generate`: endpoint path plus payload. -/
structure TextGenData where
  endpoint : String
  contents : List TextContent
  generationConfig : TextGenConfig
  safetySettings : List String
deriving DecidableEq, Repr

/-- Prompt argument of `TextHandler.generate`: a plain string, or a prompt
object whose `parts` and `text` fields may each be absent. -/
inductive Prompt
  | str (s : String)
  | obj (parts : Option (List Part)) (text : Option String)
deriving DecidableEq, Repr

/-- Embeds the prompt normalization of `TextHandler.generate`: a string
becomes a single text part; an object supplies its `parts`, falling back to
one text part built from its `text` field defaulted to the empty string. -/
def promptParts : Prompt → List Part
  | .str s => [.text s]
  | .obj parts text => parts.getD [.text (text.getD "")]

/-- Embeds the payload construction of `TextHandler.generate`: endpoint from
the `||`-defaulted model, one content carrying the normalized prompt parts,
and a generation config whose fields are `||`-defaulted to 0.7 / 40 / 0.95 /
1024 / `[]`. -/
def TextHandler.generate (clientModel : String) (prompt : Prompt)
    (options : GenOptions) : TextGenData :=
  let model := jsOrString options.model clientModel
  { endpoint := "models/" ++ model ++ ":generateContent"
    contents := [{ parts := promptParts prompt }]
    generationConfig :=
      { temperature := jsOrRat options.temperature (7 / 10)
        topK := jsOrNat options.topK 40
        topP := jsOrRat options.topP (95 / 100)
        maxOutputTokens := jsOrNat options.maxTokens 1024
        stopSequences := options.stopSequences.getD [] }
    safetySettings := options.safetySettings.getD [] }

/-- The four-field `generationConfig` block built by the vision handler and
the chat session (no `stopSequences` field there). -/
structure BasicGenConfig where
  temperature : ℚ
  topK : Nat
  topP : ℚ
  maxOutputTokens : Nat
deriving DecidableEq, Repr

/-- Image argument of `VisionHandler.analyze`: a string, a binary blob/file
object (already carrying the base64 text its asynchronous read produces),
or some other JS value such as a plain number. -/
inductive ImageInput
  | str (s : String)
  | blob (mimeType : String) (base64Data : String)
  | number (n : Int)
  | otherValue
deriving DecidableEq, Repr

/-- The request built by `VisionHandler.analyze`. The image part slot is an
`Option` because the source leaves the local `imagePart` undefined when the
input is neither a string nor a blob/file, and still places it into the
parts array. -/
structure VisionData where
  endpoint : String
  parts : List (Option Part)
  generationConfig : BasicGenConfig
deriving DecidableEq, Repr

/-- Embeds `VisionHandler.analyze` up to the network call: string inputs are
accepted only with a `data:` or `http` prefix (otherwise an `Error` is
thrown), blob/file inputs become inline data with the blob's type
`||`-defaulted to `image/jpeg`, and any other input leaves the image part
undefined; when nothing is thrown the built request is returned. -/
def VisionHandler.analyze (clientModel : String) (image : ImageInput)
    (prompt : String) (options : GenOptions) :
    Except ThrownError VisionData :=
  let model := jsOrString options.model clientModel
  let imagePart : Except ThrownError (Option Part) :=
    match image with
    | .str s =>
      if s.startsWith "data:" || s.startsWith "http" then
        .ok (some (.inlineData "image/jpeg" s))
      else
        .error (.jsError "Error" "Image must be a URL, base64 string, Blob, or File")
    | .blob mimeType base64Data =>
      .ok (some (.inlineData (jsOrString (some mimeType) "image/jpeg") base64Data))
    | .number _ => .ok none
    | .otherValue => .ok none
  match imagePart with
  | .error e => .error e
  | .ok p =>
    .ok
      { endpoint := "models/" ++ model ++ ":generateContent"
        parts := [p, some (.text prompt)]
        generationConfig :=
          { temperature := jsOrRat options.temperature (7 / 10)
            topK := jsOrNat options.topK 40
            topP := jsOrRat options.topP (95 / 100)
            maxOutputTokens := jsOrNat options.maxTokens 1024 } }

/-- Texts argument of `EmbeddingsHandler.generate`: a single string or an
array of strings. -/
inductive TextsInput
  | one (s : String)
  | many (texts : List String)
deriving DecidableEq, Repr

/-- Embeds `Array.isArray(texts) ? texts : [texts]`. -/
def normalizeTexts : TextsInput → List String
  | .one s => [s]
  | .many texts => texts

/-- Options object accepted by `EmbeddingsHandler.generate`. -/
structure EmbedOptions where
  model : Option String := none
deriving DecidableEq, Repr

/-- The content object of the embedding payload. -/
structure EmbedContent where
  parts : List Part
deriving DecidableEq, Repr

/-- The request built by `EmbeddingsHandler.generate`. -/
structure EmbedData where
  endpoint : String
  model : String
  content : EmbedContent
deriving DecidableEq, Repr

/-- Embeds `EmbeddingsHandler.generate` up to the network call: the model is
`||`-defaulted to `embedding-001`, the input is normalized to an array, and
one text part is built per input text in input order. -/
def EmbeddingsHandler.generate (texts : TextsInput) (options : EmbedOptions) :
    EmbedData :=
  let model := jsOrString options.model "embedding-001"
  { endpoint := "models/" ++ model ++ ":embedContent"
    model := "models/" ++ model
    content := { parts := (normalizeTexts texts).map Part.text } }

/-- One element of a raw embedding response's `embeddings` array. -/
structure EmbeddingItem where
  values : List ℚ
deriving DecidableEq, Repr

/-- Raw JSON body of an embedding response; the `embeddings` array may be
absent. -/
structure RawEmbedResponse where
  embeddings : Option (List EmbeddingItem)
deriving DecidableEq, Repr

/-- Embeds `EmbeddingsResponse.embeddings`: optional chaining over the raw
`embeddings` array, mapping each element to its `values`, defaulting to the
empty array when absent. -/
def EmbeddingsResponse.embeddings (raw : RawEmbedResponse) : List (List ℚ) :=
  (raw.embeddings.map (fun items => items.map EmbeddingItem.values)).getD []

/-- A part of a raw generation response; its `text` field may be absent. -/
structure RawPart where
  text : Option String
deriving DecidableEq, Repr

/-- The `content` object of a raw candidate; its `parts` array may be
absent. -/
structure RawContent where
  parts : Option (List RawPart)
deriving DecidableEq, Repr

/-- One candidate of a raw generation response. Safety ratings are opaque;
they are embedded as strings. -/
structure RawCandidate where
  content : RawContent
  safetyRatings : Option (List String)
deriving DecidableEq, Repr

/-- Raw JSON body of a generation response; the `candidates` array may be
absent. -/
structure RawResponse where
  candidates : Option (List RawCandidate)
deriving DecidableEq, Repr

/-- Embeds `TextResponse.text`: candidates defaulted to `[]`; the empty case
returns the empty string, otherwise candidate 0's parts (defaulted to `[]`)
are mapped to their `||`-defaulted text and joined with no separator. -/
def TextResponse.text (raw : RawResponse) : String :=
  match raw.candidates.getD [] with
  | [] => ""
  | c :: _ => String.join ((c.content.parts.getD []).map (fun p => p.text.getD ""))

/-- Embeds `TextResponse.candidates`. -/
def TextResponse.candidates (raw : RawResponse) : List RawCandidate :=
  raw.candidates.getD []

/-- Embeds `TextResponse.safetyRatings`: the empty-candidates case returns
`[]`, otherwise candidate 0's ratings defaulted to `[]`. -/
def TextResponse.safetyRatings (raw : RawResponse) : List String :=
  match raw.candidates.getD [] with
  | [] => []
  | c :: _ => c.safetyRatings.getD []

/-- State of a chat session: model, system directive (empty when unset, as
in the source's `options.systemPrompt || ''`), and the turn log. -/
structure ChatSession where
  model : String
  systemPrompt : String
  messages : List Turn
deriving DecidableEq, Repr

/-- Observable effect of one `ChatSession.send` call: the value returned or
error propagated, the updated session, and the content sequence handed to
the request executor. -/
structure SendResult where
  response : Except ThrownError RawResponse
  session : ChatSession
  sentContents : List Turn

/-- Embeds `ChatSession.send` with the network outcome of this call's
request given by `net`: the user turn is pushed first; the sent contents are
a copy of the turn log with a fresh system turn unshifted onto it when the
system directive is truthy; on success a model turn built from the response
text is pushed; on failure the error propagates and the turn log keeps the
dangling user turn. -/
def ChatSession.send (session : ChatSession) (message : String)
    (net : Except ThrownError RawResponse) : SendResult :=
  let messages1 := session.messages ++ [{ role := .user, parts := [.text message] }]
  let contents :=
    if session.systemPrompt = "" then messages1
    else { role := Role.system, parts := [Part.text session.systemPrompt] } :: messages1
  match net with
  | .error e =>
    { response := .error e
      session := { session with messages := messages1 }
      sentContents := contents }
  | .ok raw =>
    { response := .ok raw
      session :=
        { session with
          messages := messages1 ++
            [{ role := .model, parts := [.text (TextResponse.text raw)] }] }
      sentContents := contents }

/-- Folds a sequence of `send` calls (message and network outcome per call)
over a session, keeping the session state each call leaves behind. -/
def ChatSession.sendAll (session : ChatSession) :
    List (String × Except ThrownError RawResponse) → ChatSession
  | [] => session
  | (message, net) :: rest =>
    ((session.send message net).session).sendAll rest

/-- Embeds `ChatSession.clear`. -/
def ChatSession.clear (session : ChatSession) : ChatSession :=
  { session with messages := [] }

/-- Helper: peeling the first wait off the backoff formula list. -/
theorem backoffWaits_succ (k r : Nat) :
    (List.range (k + 1)).map (fun i => 2 ^ (r + i + 1) * 500) =
      2 ^ (r + 1) * 500 ::
        (List.range k).map (fun i => 2 ^ (r + 1 + i + 1) * 500) := by
  rw [List.range_succ_eq_map, List.map_cons, List.map_map]
  simp only [List.cons.injEq]
  constructor
  · norm_num
  · apply List.map_congr_left
    intro i _
    simp only [Function.comp_apply]
    have h : r + Nat.succ i + 1 = r + 1 + i + 1 := by omega
    rw [h]

/-- Helper: while the pending failures are retryable HTTP errors and the
budget is not exhausted, the loop performs one network attempt per failure
and accumulates the corresponding backoff waits, then continues at the
advanced loop variable. The fuel is kept at its loop invariant
`maxRetries + 1 - retries`. -/
theorem requestLoop_retryPhase (maxRetries : Nat) (outcomes : Nat → Outcome α) :
    ∀ k r, r + k ≤ maxRetries →
    (∀ i, i < k → ∃ s m, outcomes (r + i) = Outcome.httpError s m ∧
        isRetryableError (.geminiError m s) = true) →
    requestLoop maxRetries outcomes (maxRetries + 1 - r) r =
      { result := (requestLoop maxRetries outcomes
          (maxRetries + 1 - (r + k)) (r + k)).result
        attempts := (requestLoop maxRetries outcomes
          (maxRetries + 1 - (r + k)) (r + k)).attempts + k
        waits := (List.range k).map (fun i => 2 ^ (r + i + 1) * 500) ++
          (requestLoop maxRetries outcomes
            (maxRetries + 1 - (r + k)) (r + k)).waits } := by
  intro k
  induction k with
  | zero =>
    intro r _ _
    simp
  | succ k ih =>
    intro r hr hfail
    obtain ⟨s, m, ho, hretry⟩ := hfail 0 (Nat.succ_pos k)
    rw [Nat.add_zero] at ho
    have hr0 : r ≤ maxRetries := by omega
    have hfuel : maxRetries + 1 - r = (maxRetries - r) + 1 := by omega
    rw [hfuel]
    simp only [requestLoop]
    rw [if_pos hr0, ho]
    simp only [attemptStep]
    rw [if_neg (by
      rw [hretry]
      simp only [not_or]
      exact ⟨by omega, by simp⟩)]
    have hfe : maxRetries - r = maxRetries + 1 - (r + 1) := by omega
    rw [hfe]
    have ih' := ih (r + 1) (by omega) (fun i hi => by
      obtain ⟨s2, m2, ho2, hr2⟩ := hfail (i + 1) (by omega)
      have he : r + (i + 1) = r + 1 + i := by omega
      rw [he] at ho2
      exact ⟨s2, m2, ho2, hr2⟩)
    rw [ih']
    have hidx : r + 1 + k = r + (k + 1) := by omega
    rw [hidx]
    rw [backoffWaits_succ]
    simp only [List.cons_append, RequestResult.mk.injEq]
    exact ⟨trivial, by omega, trivial⟩

/-- C1: when the first N attempts fail with retryable server errors
(N ≤ maxRetries) and attempt N+1 succeeds, the call returns the decoded
body of the successful response, makes exactly N+1 network attempts, and
waits 500 times 2 to the attemptNumber milliseconds before each retry
(attempt-indexed from 1), a non-decreasing sequence of delays. -/
theorem request_retry_success {α : Type} (maxRetries N : Nat)
    (outcomes : Nat → Outcome α) (body : α)
    (hN : N ≤ maxRetries)
    (hfail : ∀ i, i < N → ∃ s m, outcomes i = Outcome.httpError s m ∧
        isRetryableError (.geminiError m s) = true)
    (hsucc : outcomes N = Outcome.success body) :
    GeminiClient.request maxRetries outcomes =
      { result := .ok body
        attempts := N + 1
        waits := (List.range N).map (fun i => 2 ^ (i + 1) * 500) } ∧
      List.Chain' (· ≤ ·) ((List.range N).map (fun i => 2 ^ (i + 1) * 500)) := by
  constructor
  · show requestLoop maxRetries outcomes (maxRetries + 1) 0 = _
    have hsteps := requestLoop_retryPhase maxRetries outcomes N 0 (by omega)
      (fun i hi => by simpa using hfail i hi)
    rw [show maxRetries + 1 = maxRetries + 1 - 0 from rfl, hsteps]
    simp only [Nat.zero_add]
    have hfuel : maxRetries + 1 - N = (maxRetries - N) + 1 := by omega
    rw [hfuel]
    simp only [requestLoop]
    rw [if_pos hN, hsucc]
    simp only [attemptStep, List.append_nil, RequestResult.mk.injEq]
    exact ⟨trivial, by omega, trivial⟩
  · rw [List.chain'_map]
    apply List.Pairwise.chain'
    apply (List.pairwise_lt_range N).imp
    intro a b hab
    have h2 : (2 : Nat) ^ (a + 1) ≤ 2 ^ (b + 1) :=
      Nat.pow_le_pow_right (by omega) (by omega)
    exact Nat.mul_le_mul_right 500 h2

/-- C1 witness: with maxRetries 2, a retryable 503 on the first attempt and
a success on the second, the call returns the body after exactly 2 attempts
with the single backoff wait 1000 ms. -/
theorem request_retry_success_witness :
    GeminiClient.request 2
        (fun i => if i = 0 then Outcome.httpError 503 "e" else Outcome.success 7) =
      { result := .ok 7
        attempts := 2
        waits := (List.range 1).map (fun i => 2 ^ (i + 1) * 500) } ∧
      List.Chain' (· ≤ ·) ((List.range 1).map (fun i => 2 ^ (i + 1) * 500)) :=
  request_retry_success 2 1
    (fun i => if i = 0 then Outcome.httpError 503 "e" else Outcome.success 7) 7
    (by omega)
    (by
      intro i hi
      have h0 : i = 0 := by omega
      subst h0
      exact ⟨503, "e", rfl, rfl⟩)
    rfl

/-- C3: whenever execution reaches an attempt that is aborted by the
per-attempt timeout (after k retryable server failures, k ≤ maxRetries),
the call fails with the 408 "Request timed out" `GeminiError` thrown
immediately: exactly k+1 attempts are made (the aborted one is never
retried) and only the k pre-abort backoff waits occur, regardless of how
much retry budget remains. -/
theorem request_timeout_thrown_immediately {α : Type} (maxRetries k : Nat)
    (outcomes : Nat → Outcome α)
    (hk : k ≤ maxRetries)
    (hfail : ∀ i, i < k → ∃ s m, outcomes i = Outcome.httpError s m ∧
        isRetryableError (.geminiError m s) = true)
    (habort : outcomes k = Outcome.abort) :
    GeminiClient.request maxRetries outcomes =
      { result := .err (.geminiError "Request timed out" 408)
        attempts := k + 1
        waits := (List.range k).map (fun i => 2 ^ (i + 1) * 500) } := by
  show requestLoop maxRetries outcomes (maxRetries + 1) 0 = _
  have hsteps := requestLoop_retryPhase maxRetries outcomes k 0 (by omega)
    (fun i hi => by simpa using hfail i hi)
  rw [show maxRetries + 1 = maxRetries + 1 - 0 from rfl, hsteps]
  simp only [Nat.zero_add]
  have hfuel : maxRetries + 1 - k = (maxRetries - k) + 1 := by omega
  rw [hfuel]
  simp only [requestLoop]
  rw [if_pos hk, habort]
  simp only [attemptStep, List.append_nil, RequestResult.mk.injEq]
  exact ⟨trivial, by omega, trivial⟩

/-- C3 witness: an abort on the very first attempt with maxRetries 5 throws
the 408 error after exactly one attempt and no backoff wait. -/
theorem request_timeout_thrown_immediately_witness :
    GeminiClient.request 5 (fun _ => (Outcome.abort : Outcome Nat)) =
      { result := .err (.geminiError "Request timed out" 408)
        attempts := 0 + 1
        waits := (List.range 0).map (fun i => 2 ^ (i + 1) * 500) } :=
  request_timeout_thrown_immediately 5 0 (fun _ => (Outcome.abort : Outcome Nat))
    (by omega) (by intro i hi; omega) rfl

/-- C4: a 400 response on the first attempt makes the call fail after
exactly one network attempt with the 400 `GeminiError` and no backoff wait,
for every maxRetries; and a `GeminiError` (Service Error) is retryable
exactly when its status code is 429, 500, 502, 503 or 504. -/
theorem request_status400_not_retried {α : Type} (maxRetries : Nat)
    (outcomes : Nat → Outcome α) (m : String)
    (h400 : outcomes 0 = Outcome.httpError 400 m) :
    GeminiClient.request maxRetries outcomes =
      { result := .err (.geminiError m 400), attempts := 1, waits := [] } ∧
    ∀ s msg, isRetryableError (.geminiError msg s) = true ↔
      (s = 429 ∨ s = 500 ∨ s = 502 ∨ s = 503 ∨ s = 504) := by
  constructor
  · show requestLoop maxRetries outcomes (maxRetries + 1) 0 = _
    simp only [requestLoop]
    rw [if_pos (by omega : 0 ≤ maxRetries), h400]
    simp only [attemptStep]
    rw [if_pos (Or.inr (show isRetryableError (ThrownError.geminiError m 400) = false from rfl))]
  · intro s msg
    simp [isRetryableError, List.contains_iff_exists_mem_beq]

/-- C4 witness: with maxRetries 3 and a server that always answers 400, the
call fails after one attempt, and 400 is indeed not a retryable code. -/
theorem request_status400_not_retried_witness :
    (GeminiClient.request 3 (fun _ => (Outcome.httpError 400 "bad" : Outcome Nat)) =
      { result := .err (.geminiError "bad" 400), attempts := 1, waits := [] } ∧
    ∀ s msg, isRetryableError (.geminiError msg s) = true ↔
      (s = 429 ∨ s = 500 ∨ s = 502 ∨ s = 503 ∨ s = 504)) :=
  request_status400_not_retried 3
    (fun _ => (Outcome.httpError 400 "bad" : Outcome Nat)) "bad" rfl

/-- C7 counterexample: constructing a client with an explicit maxRetries of
0 stores the default budget 3, not 0, and on persistent retryable failure
the executor then makes 4 network attempts, not 1. -/
theorem client_maxRetriesZero_counterexample :
    GeminiClient.make "key" { maxRetries := some 0 } =
      .ok { apiKey := "key"
            baseUrl := "https://generativelanguage.googleapis.com/v1beta"
            model := "gemini-1.5-pro", maxRetries := 3, timeout := 30000 } ∧
    (GeminiClient.request 3
      (fun _ => (Outcome.httpError 503 "x" : Outcome Nat))).attempts = 4 := by
  constructor
  · rfl
  · decide

/-- C7 amended: a client constructed with an explicit maxRetries of 0
stores the default retry budget 3 (0 is falsy, so the constructor's
||-defaulting discards it), and the Request Executor therefore attempts
delivery exactly 4 times on persistent retryable failure. -/
theorem client_maxRetriesZero_default {α : Type} (apiKey : String)
    (options : ClientOptions) (outcomes : Nat → Outcome α) (c : GeminiClient)
    (hkey : apiKey ≠ "")
    (hopt : options.maxRetries = some 0)
    (hmk : GeminiClient.make apiKey options = .ok c)
    (hfail : ∀ i, i < 4 → ∃ s m, outcomes i = Outcome.httpError s m ∧
        isRetryableError (.geminiError m s) = true) :
    c.maxRetries = 3 ∧
    (GeminiClient.request c.maxRetries outcomes).attempts = 4 := by
  have hc : c.maxRetries = 3 := by
    unfold GeminiClient.make at hmk
    rw [if_neg hkey] at hmk
    injection hmk with h
    rw [← h]
    simp [hopt, jsOrNat]
  refine ⟨hc, ?_⟩
  rw [hc]
  show (requestLoop 3 outcomes (3 + 1) 0).attempts = 4
  have hsteps := requestLoop_retryPhase 3 outcomes 3 0 (by omega)
    (fun i hi => by simpa using hfail i (by omega))
  rw [show (3 : Nat) + 1 = 3 + 1 - 0 from rfl, hsteps]
  simp only [Nat.zero_add]
  obtain ⟨s, m, ho, _⟩ := hfail 3 (by omega)
  rw [show (3 : Nat) + 1 - 3 = 0 + 1 from rfl]
  simp only [requestLoop]
  rw [if_pos (by omega : (3 : Nat) ≤ 3), ho]
  simp only [attemptStep]
  rw [if_pos (Or.inl (by omega))]

/-- C7 witness for the amended claim, at a concrete client and an always
failing 503 oracle. -/
theorem client_maxRetriesZero_default_witness :
    ({ apiKey := "key"
       baseUrl := "https://generativelanguage.googleapis.com/v1beta"
       model := "gemini-1.5-pro", maxRetries := 3,
       timeout := 30000 } : GeminiClient).maxRetries = 3 ∧
    (GeminiClient.request
      ({ apiKey := "key"
         baseUrl := "https://generativelanguage.googleapis.com/v1beta"
         model := "gemini-1.5-pro", maxRetries := 3,
         timeout := 30000 } : GeminiClient).maxRetries
      (fun _ => (Outcome.httpError 503 "x" : Outcome Nat))).attempts = 4 :=
  client_maxRetriesZero_default "key" { maxRetries := some 0 }
    (fun _ => (Outcome.httpError 503 "x" : Outcome Nat))
    { apiKey := "key"
      baseUrl := "https://generativelanguage.googleapis.com/v1beta"
      model := "gemini-1.5-pro", maxRetries := 3, timeout := 30000 }
    (by decide) rfl rfl
    (by intro i hi; exact ⟨503, "x", rfl, rfl⟩)

/-- C6 counterexample: with temperature explicitly set to 0, the payload's
generationConfig temperature is the default 0.7, not the provided 0. -/
theorem textGenerate_zeroTemperature_counterexample :
    (TextHandler.generate "gemini-1.5-pro" (Prompt.str "p")
        { temperature := some 0 }).generationConfig.temperature = 7 / 10 ∧
    (7 : ℚ) / 10 ≠ 0 := by
  constructor
  · rfl
  · norm_num

/-- C6 amended: each generationConfig field equals the caller's option
value when that value is set and nonzero, and equals the fixed default
(temperature 0.7, topK 40, topP 0.95, maxOutputTokens 1024) when the field
is unset or explicitly set to 0, since the ||-defaulting treats an explicit
0 as unset. -/
theorem textGenerate_config_selection (clientModel : String) (prompt : Prompt)
    (options : GenOptions) :
    ((options.temperature = none ∨ options.temperature = some 0) →
      (TextHandler.generate clientModel prompt options).generationConfig.temperature = 7 / 10) ∧
    (∀ q : ℚ, options.temperature = some q → q ≠ 0 →
      (TextHandler.generate clientModel prompt options).generationConfig.temperature = q) ∧
    ((options.topK = none ∨ options.topK = some 0) →
      (TextHandler.generate clientModel prompt options).generationConfig.topK = 40) ∧
    (∀ n : Nat, options.topK = some n → n ≠ 0 →
      (TextHandler.generate clientModel prompt options).generationConfig.topK = n) ∧
    ((options.topP = none ∨ options.topP = some 0) →
      (TextHandler.generate clientModel prompt options).generationConfig.topP = 95 / 100) ∧
    (∀ q : ℚ, options.topP = some q → q ≠ 0 →
      (TextHandler.generate clientModel prompt options).generationConfig.topP = q) ∧
    ((options.maxTokens = none ∨ options.maxTokens = some 0) →
      (TextHandler.generate clientModel prompt options).generationConfig.maxOutputTokens = 1024) ∧
    (∀ n : Nat, options.maxTokens = some n → n ≠ 0 →
      (TextHandler.generate clientModel prompt options).generationConfig.maxOutputTokens = n) := by
  refine ⟨?_, ?_, ?_, ?_, ?_, ?_, ?_, ?_⟩
  · rintro (h | h) <;> simp [TextHandler.generate, jsOrRat, h]
  · intro q hq hne; simp [TextHandler.generate, jsOrRat, hq, hne]
  · rintro (h | h) <;> simp [TextHandler.generate, jsOrNat, h]
  · intro n hn hne; simp [TextHandler.generate, jsOrNat, hn, hne]
  · rintro (h | h) <;> simp [TextHandler.generate, jsOrRat, h]
  · intro q hq hne; simp [TextHandler.generate, jsOrRat, hq, hne]
  · rintro (h | h) <;> simp [TextHandler.generate, jsOrNat, h]
  · intro n hn hne; simp [TextHandler.generate, jsOrNat, hn, hne]

/-- C6 witness for the amended claim: a nonzero explicit temperature is
used as given. -/
theorem textGenerate_config_selection_witness :
    (TextHandler.generate "gemini-1.5-pro" (Prompt.str "p")
        { temperature := some (1 / 2) }).generationConfig.temperature = 1 / 2 :=
  (textGenerate_config_selection "gemini-1.5-pro" (Prompt.str "p")
    { temperature := some (1 / 2) }).2.1 (1 / 2) rfl (by norm_num)

/-- Helper: the turn log after a sequence of send calls is the starting log
followed by, per call in order, the user turn and, only when that call's
network request succeeded, the answering model turn. -/
theorem sendAll_messages (calls : List (String × Except ThrownError RawResponse)) :
    ∀ session : ChatSession,
    (ChatSession.sendAll session calls).messages =
      session.messages ++ calls.flatMap (fun call =>
        { role := Role.user, parts := [Part.text call.1] } ::
          (match call.2 with
           | .ok raw =>
             [{ role := Role.model, parts := [Part.text (TextResponse.text raw)] }]
           | .error _ => [])) := by
  induction calls with
  | nil => intro session; simp [ChatSession.sendAll]
  | cons call rest ih =>
    intro session
    obtain ⟨msg, net⟩ := call
    cases net with
    | ok raw =>
      simp [ChatSession.sendAll, ChatSession.send, ih, List.append_assoc]
    | error e =>
      simp [ChatSession.sendAll, ChatSession.send, ih, List.append_assoc]

/-- C2: starting from an empty turn log, the log after any sequence of send
calls is exactly, in call order, one user turn per call followed by one
model turn only for the calls whose network request succeeded; a failed
call leaves its user turn dangling with no rollback. -/
theorem chatSession_turn_log (session : ChatSession)
    (calls : List (String × Except ThrownError RawResponse))
    (hstart : session.messages = []) :
    (ChatSession.sendAll session calls).messages =
      calls.flatMap (fun call =>
        { role := Role.user, parts := [Part.text call.1] } ::
          (match call.2 with
           | .ok raw =>
             [{ role := Role.model, parts := [Part.text (TextResponse.text raw)] }]
           | .error _ => [])) := by
  rw [sendAll_messages calls session, hstart, List.nil_append]

/-- C2 witness: a successful send of "hi" answered "reply1" followed by a
failing send of "again" leaves exactly the 3 turns
[user "hi", model "reply1", user "again"]. -/
theorem chatSession_turn_log_witness :
    (ChatSession.sendAll { model := "gemini-1.5-pro", systemPrompt := "", messages := [] }
        [("hi", .ok ⟨some [⟨⟨some [⟨some "reply1"⟩]⟩, none⟩]⟩),
         ("again", .error (.geminiError "boom" 500))]).messages =
      [{ role := Role.user, parts := [Part.text "hi"] },
       { role := Role.model, parts := [Part.text "reply1"] },
       { role := Role.user, parts := [Part.text "again"] }] := by
  have h := chatSession_turn_log
    { model := "gemini-1.5-pro", systemPrompt := "", messages := [] }
    [("hi", .ok ⟨some [⟨⟨some [⟨some "reply1"⟩]⟩, none⟩]⟩),
     ("again", .error (.geminiError "boom" 500))] rfl
  rw [h]
  decide

/-- C9: when a system directive is set, the content sequence a send hands
to the executor is a freshly built system turn followed by the entire
persisted turn log (user turn of this call included), and the persisted
turn log never acquires a system turn over any sequence of sends. -/
theorem chatSession_system_fresh (session : ChatSession) (message : String)
    (net : Except ThrownError RawResponse)
    (calls : List (String × Except ThrownError RawResponse))
    (hsys : session.systemPrompt ≠ "")
    (hclean : ∀ t ∈ session.messages, t.role ≠ Role.system) :
    (ChatSession.send session message net).sentContents =
      { role := Role.system, parts := [Part.text session.systemPrompt] } ::
        (session.messages ++ [{ role := Role.user, parts := [Part.text message] }]) ∧
    ∀ t ∈ (ChatSession.sendAll session calls).messages, t.role ≠ Role.system := by
  constructor
  · cases net with
    | ok raw => simp [ChatSession.send, hsys]
    | error e => simp [ChatSession.send, hsys]
  · intro t ht
    rw [sendAll_messages] at ht
    rcases List.mem_append.mp ht with h1 | h2
    · exact hclean t h1
    · obtain ⟨call, _, hmem⟩ := List.mem_flatMap.mp h2
      cases hcall : call.2 with
      | ok raw =>
        rw [hcall] at hmem
        simp only [List.mem_cons, List.not_mem_nil, or_false] at hmem
        rcases hmem with h | h <;> simp [h]
      | error e =>
        rw [hcall] at hmem
        simp only [List.mem_cons, List.not_mem_nil, or_false] at hmem
        simp [hmem]

/-- C9 witness: one send on a session with system directive "sys" and empty
log sends [system "sys", user "hi"] and persists no system turn. -/
theorem chatSession_system_fresh_witness :
    (ChatSession.send { model := "m", systemPrompt := "sys", messages := [] } "hi"
        (.error (.geminiError "boom" 500))).sentContents =
      { role := Role.system, parts := [Part.text "sys"] } ::
        (({ model := "m", systemPrompt := "sys", messages := [] } : ChatSession).messages ++
          [{ role := Role.user, parts := [Part.text "hi"] }]) ∧
    ∀ t ∈ (ChatSession.sendAll { model := "m", systemPrompt := "sys", messages := [] }
        [("hi", .error (.geminiError "boom" 500))]).messages, t.role ≠ Role.system :=
  chatSession_system_fresh { model := "m", systemPrompt := "sys", messages := [] }
    "hi" (.error (.geminiError "boom" 500))
    [("hi", .error (.geminiError "boom" 500))]
    (by decide) (by simp)

/-- C5, evaluated at the failing input: a plain-number image is neither
rejected nor converted — the handler leaves the image part undefined and
still proceeds to the network call with that malformed parts array, instead
of throwing a Validation Error with zero network attempts. -/
theorem visionAnalyze_number_reaches_network :
    VisionHandler.analyze "gemini-1.5-pro" (ImageInput.number 42)
        "Describe this image in detail" {} =
      .ok { endpoint := "models/gemini-1.5-pro:generateContent"
            parts := [none, some (Part.text "Describe this image in detail")]
            generationConfig :=
              { temperature := 7 / 10, topK := 40, topP := 95 / 100,
                maxOutputTokens := 1024 } } := by
  rfl

/-- C8: a single string input is normalized to a one-element sequence; the
embedding payload has exactly one text content part per input text, index
for index in input order; and the wrapper's vector sequence is index for
index the response's embeddings array, preserving order. -/
theorem embeddings_order_preserving (s : String) (texts : TextsInput)
    (options : EmbedOptions) (raw : RawEmbedResponse) :
    normalizeTexts (TextsInput.one s) = [s] ∧
    (EmbeddingsHandler.generate texts options).content.parts.length =
      (normalizeTexts texts).length ∧
    (∀ i : Nat, (EmbeddingsHandler.generate texts options).content.parts[i]? =
      ((normalizeTexts texts)[i]?).map Part.text) ∧
    (∀ i : Nat, (EmbeddingsResponse.embeddings raw)[i]? =
      ((raw.embeddings.getD [])[i]?).map EmbeddingItem.values) := by
  refine ⟨rfl, ?_, ?_, ?_⟩
  · simp [EmbeddingsHandler.generate]
  · intro i
    simp [EmbeddingsHandler.generate, List.getElem?_map]
  · intro i
    cases h : raw.embeddings with
    | none => simp [EmbeddingsResponse.embeddings, h]
    | some items => simp [EmbeddingsResponse.embeddings, h, List.getElem?_map]

/-- C10: on a response whose candidates array is absent or empty, both
accessors are total: text() is the empty string and safetyRatings() the
empty sequence; candidate 0 is never accessed. -/
theorem textResponse_empty_total (raw : RawResponse)
    (h : raw.candidates = none ∨ raw.candidates = some []) :
    TextResponse.text raw = "" ∧ TextResponse.safetyRatings raw = [] := by
  rcases h with h | h <;>
    simp [TextResponse.text, TextResponse.safetyRatings, h]

/-- C10 witness at the body with no candidates field. -/
theorem textResponse_empty_total_witness :
    TextResponse.text ⟨none⟩ = "" ∧ TextResponse.safetyRatings ⟨none⟩ = [] :=
  textResponse_empty_total ⟨none⟩ (Or.inl rfl)

end Gemini
